import Mathlib

/-!
Shallow embedding of the scheduling and decision core of the Claude automation
daemon (TOOLS/CLAUDE_AUTOMATION): the agent-routing function of agent_router.rs
and the polling-loop phases of main.rs (trigger scan, conversation poll,
activity-state update, PR-feedback monitoring), together with theorems about
idempotency, error handling, routing precedence, spawn sequencing and the
activity state machine.

External collaborators (config.rs, github.rs, state.rs, session.rs,
worktree.rs) are not part of the provided sources; their observable outcomes
are supplied as explicit oracles, and the behaviour main.rs relies on
(AutomationRecord creation by a successful Planner spawn) is modelled from the
specification where noted.
-/

namespace Automation

/-- The two agent archetypes of agent_router.rs: Planner (Opus, architectural
reasoning) and Executor (Sonnet, fast iteration). -/
inductive Agent where
  | Planner
  | Executor
deriving DecidableEq, Repr

/-- The adaptive-polling activity states of main.rs lines 18-23. -/
inductive ActivityState where
  | Idle
  | Active
  | VeryActive
deriving DecidableEq, Repr

/-- ASCII lower-casing of a string; Rust str::to_lowercase restricted to the
ASCII fragment actually exercised by the keyword table and the test bodies. -/
def lowerStr (s : String) : String := ⟨s.data.map Char.toLower⟩

/-- Substring occurrence test on character lists, the semantics of Rust
str::contains for plain-string patterns. -/
def listContainsSub (needle : List Char) : List Char → Bool
  | [] => needle.isEmpty
  | c :: rest => needle.isPrefixOf (c :: rest) || listContainsSub needle rest

/-- Substring occurrence test on strings. -/
def strContainsSub (hay needle : String) : Bool := listContainsSub needle.data hay.data

/-- The ASCII apostrophe character. -/
def apostrophe : Char := Char.ofNat 39

/-- The replanning keyword that contains an apostrophe, built from its pieces. -/
def letsTryKeyword : String := "let" ++ String.singleton apostrophe ++ "s try"

/-- The fixed re-planning keyword table of agent_router.rs lines 19-29. -/
def replanning_keywords : List String :=
  ["different approach", "rethink", "redesign", "change architecture",
   "breaking change", "major refactor", letsTryKeyword, "instead of", "better way"]

/-- Modelled from the spec: the Comment record delivered by the issue-tracker
client (github.rs is not among the provided sources). agent_router.rs reads
the fields issue_number and body; the others complete the data model of the
specification. -/
structure Comment where
  issue_number : Nat
  author : String
  body : String
  created_at : Nat
deriving DecidableEq, Repr

/-- Modelled from the spec: the state-store interface of state.rs (not among
the provided sources) as called from main.rs and agent_router.rs. records is
the ground-truth AutomationRecord existence per issue number; each read or
write is given an explicit, possibly failing outcome so that the error paths
of main.rs can be stated. -/
structure Database where
  records : Nat → Bool
  existsReadErr : Nat → Bool
  hasPlanRes : Nat → Except Unit Bool
  lastTimeRes : Nat → Except Unit Nat
  addCommentsErr : Nat → Bool

/-- The state-store existence read db.automation_exists(issue) used at
main.rs line 75; the caller there applies unwrap_or(false) to this result. -/
def Database.automation_exists (db : Database) (issue : Nat) : Except Unit Bool :=
  if db.existsReadErr issue then .error () else .ok (db.records issue)

namespace AgentRouter

/-- agent_router.rs decide: empty comment list defaults to Executor; otherwise
the most recent comment is lower-cased and matched against the re-planning
keyword table (Planner on a hit); otherwise a missing plan for the comment
issue forces Planner; otherwise Executor. The plan read db.has_plan may fail,
and its error propagates out of decide. -/
def decide (comments : List Comment) (db : Database) : Except Unit Agent :=
  match comments.getLast? with
  | none => .ok .Executor
  | some last =>
    let body := lowerStr last.body
    if replanning_keywords.any (fun kw => strContainsSub body kw) then .ok .Planner
    else
      match db.hasPlanRes last.issue_number with
      | .error e => .error e
      | .ok hasPlan => if !hasPlan then .ok .Planner else .ok .Executor

end AgentRouter

/-- The daemon configuration fields read by the main loop (main.rs lines 49-60
and 164); config.rs itself is not among the provided sources, and this field
set is the recognized configuration surface of the specification. -/
structure Config where
  poll_interval_idle_secs : Nat
  poll_interval_active_secs : Nat
  poll_interval_very_active_secs : Nat
  activity_timeout_minutes : Nat

/-- Poll-interval selection from the activity state, main.rs lines 56-60. -/
def pollInterval (cfg : Config) (st : ActivityState) : Nat :=
  match st with
  | .Idle => cfg.poll_interval_idle_secs
  | .Active => cfg.poll_interval_active_secs
  | .VeryActive => cfg.poll_interval_very_active_secs

/-- The activity-state update of main.rs lines 146-173. Timestamps are seconds
as natural numbers; elapsed() corresponds to now - lastActivity with
lastActivity ≤ now, as guaranteed by Instant. Returns the new state and the
new last-activity timestamp. -/
def activityUpdate (cfg : Config) (st : ActivityState) (lastActivity now : Nat)
    (activityDetected : Bool) : ActivityState × Nat :=
  if activityDetected then
    (if now - lastActivity < 120 then .VeryActive else .Active, now)
  else
    let idleTime := now - lastActivity
    if idleTime > cfg.activity_timeout_minutes * 60 then
      (.Idle, lastActivity)
    else if idleTime > 120 ∧ st = ActivityState.VeryActive then
      (.Active, lastActivity)
    else
      (st, lastActivity)

/-- Observable requests the loop issues to the session runner; ok records
whether the external spawn succeeded. wait records the fixed 15-second grace
sleep of main.rs line 87. -/
inductive SpawnEvent where
  | plannerAttempt (issue : Nat) (ok : Bool)
  | executorAttempt (issue : Nat) (ok : Bool)
  | wait (secs : Nat)
deriving DecidableEq, Repr

/-- Modelled from the spec: per-cycle outcomes of the external collaborators —
the session runner of session.rs and the comment queries of github.rs, neither
among the provided sources. Spawn outcomes are per issue; comment queries take
the issue or PR number and the last-seen timestamp. -/
structure Env where
  plannerOk : Nat → Bool
  plannerCtxOk : Nat → Bool
  executorOk : Nat → Bool
  getNewComments : Nat → Nat → Except Unit (List Comment)
  getPrComments : Nat → Nat → Except Unit (List Comment)

/-- Rust Result::unwrap_or, as applied at main.rs line 75. -/
def unwrapOr (r : Except Unit Bool) (dflt : Bool) : Bool :=
  match r with
  | .ok b => b
  | .error _ => dflt

/-- Modelled from the spec: a successful spawn_planner creates the
AutomationRecord for its issue before control returns to the loop
(specification sections 4.2 and 4.4; session.rs and state.rs are not among
the provided sources). -/
def Database.addRecord (db : Database) (issue : Nat) : Database :=
  { db with records := fun j => if j = issue then true else db.records j }

/-- Result of the trigger-scan phase: emitted spawn events, the activity flag
contribution, and the updated state store. This phase catches every per-issue
error, so it cannot abort the process. -/
structure TriggerOut where
  events : List SpawnEvent
  activity : Bool
  db : Database

/-- Per-issue trigger handling, main.rs lines 72-99: skip when the
automation-record existence read, with unwrap_or(false), yields true;
otherwise attempt a Planner spawn; on success set the activity flag, wait the
fixed grace interval and attempt exactly one Executor spawn, logging (not
propagating) an Executor failure; on Planner failure log and move on. -/
def handleTrigger (env : Env) (db : Database) (issue : Nat) : TriggerOut :=
  if unwrapOr (db.automation_exists issue) false then
    ⟨[], false, db⟩
  else if env.plannerOk issue then
    ⟨[.plannerAttempt issue true, .wait 15, .executorAttempt issue (env.executorOk issue)],
     true, db.addRecord issue⟩
  else
    ⟨[.plannerAttempt issue false], false, db⟩

/-- The trigger-scan phase over the polled issue list, main.rs lines 67-104,
threading the state store left to right. -/
def triggerPhase (env : Env) (db : Database) : List Nat → TriggerOut
  | [] => ⟨[], false, db⟩
  | i :: rest =>
    let o := handleTrigger env db i
    let r := triggerPhase env o.db rest
    ⟨o.events ++ r.events, o.activity || r.activity, r.db⟩

/-- Result of a conversation-poll or PR-feedback step: emitted spawn events,
the activity flag contribution, and whether an error escaped the per-issue
handling through the ? operator — which propagates out of main and terminates
the daemon process. -/
structure PhaseOut where
  events : List SpawnEvent
  activity : Bool
  aborted : Bool

/-- Per-issue conversation polling, main.rs lines 109-138: the
last_comment_time read error propagates (line 110); a comment-fetch error is
caught and logged (line 135); on new comments the activity flag is set, the
router is consulted (its error propagates, line 116), the routed spawn is
attempted (its error propagates, lines 121 and 125), and the comment-history
write error propagates (line 130). -/
def handleConvIssue (env : Env) (db : Database) (issue : Nat) : PhaseOut :=
  match db.lastTimeRes issue with
  | .error _ => ⟨[], false, true⟩
  | .ok since =>
    match env.getNewComments issue since with
    | .error _ => ⟨[], false, false⟩
    | .ok cs =>
      if cs.isEmpty then ⟨[], false, false⟩
      else
        match AgentRouter.decide cs db with
        | .error _ => ⟨[], true, true⟩
        | .ok agent =>
          match agent with
          | .Planner =>
            if env.plannerCtxOk issue then
              if db.addCommentsErr issue then ⟨[.plannerAttempt issue true], true, true⟩
              else ⟨[.plannerAttempt issue true], true, false⟩
            else ⟨[.plannerAttempt issue false], true, true⟩
          | .Executor =>
            if env.executorOk issue then
              if db.addCommentsErr issue then ⟨[.executorAttempt issue true], true, true⟩
              else ⟨[.executorAttempt issue true], true, false⟩
            else ⟨[.executorAttempt issue false], true, true⟩

/-- The conversation-poll phase over the active-issue list, main.rs lines
106-144; an abort stops the phase (and the process) at that issue. -/
def conversationPhase (env : Env) (db : Database) : List Nat → PhaseOut
  | [] => ⟨[], false, false⟩
  | i :: rest =>
    let o := handleConvIssue env db i
    if o.aborted then o
    else
      let r := conversationPhase env db rest
      ⟨o.events ++ r.events, o.activity || r.activity, r.aborted⟩

/-- Per-PR feedback handling, main.rs lines 178-197: the last_comment_time
read error propagates (line 179); a PR-comment fetch error is caught (line
194); on new comments the activity flag is set and an Executor spawn is
always attempted for the associated issue with its failure caught and logged
(lines 184-188); the comment-history write error propagates (line 191). -/
def handlePrFeedback (env : Env) (db : Database) (pr issue : Nat) : PhaseOut :=
  match db.lastTimeRes issue with
  | .error _ => ⟨[], false, true⟩
  | .ok since =>
    match env.getPrComments pr since with
    | .error _ => ⟨[], false, false⟩
    | .ok cs =>
      if cs.isEmpty then ⟨[], false, false⟩
      else
        let ev := [SpawnEvent.executorAttempt issue (env.executorOk issue)]
        if db.addCommentsErr issue then ⟨ev, true, true⟩ else ⟨ev, true, false⟩

/-- The PR-feedback monitoring phase, main.rs lines 175-203. -/
def prPhase (env : Env) (db : Database) : List (Nat × Nat) → PhaseOut
  | [] => ⟨[], false, false⟩
  | (pr, issue) :: rest =>
    let o := handlePrFeedback env db pr issue
    if o.aborted then o
    else
      let r := prPhase env db rest
      ⟨o.events ++ r.events, o.activity || r.activity, r.aborted⟩

/-- Result of one loop iteration: all spawn events, the activity state and
last-activity timestamp after the update, the activity flag as set by the
PR-feedback phase (set at main.rs line 182 after the update already ran, and
never read before the next iteration resets the flag at line 64), whether an
error escaped and killed the process, and the state store. -/
structure CycleOut where
  events : List SpawnEvent
  state : ActivityState
  lastActivity : Nat
  prActivityObserved : Bool
  aborted : Bool
  db : Database

/-- One iteration of the main loop, main.rs lines 54-216, in code order:
trigger scan (errors all caught), conversation poll (several per-issue errors
propagate and abort), then the activity-state update from the flag as set by
those two phases only, then PR-feedback monitoring, whose setting of the
activity flag comes after the update. A failed poll of triggers, active
issues or automation PRs is caught and replaced by an empty list. -/
def runCycle (env : Env) (cfg : Config) (db : Database)
    (st : ActivityState) (lastActivity now : Nat)
    (triggers : Except Unit (List Nat)) (activeIssues : Except Unit (List Nat))
    (autoPrs : Except Unit (List (Nat × Nat))) : CycleOut :=
  let trig := triggerPhase env db (match triggers with | .ok l => l | .error _ => [])
  let conv :=
    match activeIssues with
    | .ok l => conversationPhase env trig.db l
    | .error _ => (⟨[], false, false⟩ : PhaseOut)
  if conv.aborted then
    ⟨trig.events ++ conv.events, st, lastActivity, false, true, trig.db⟩
  else
    let detected := trig.activity || conv.activity
    let upd := activityUpdate cfg st lastActivity now detected
    let pr :=
      match autoPrs with
      | .ok l => prPhase env trig.db l
      | .error _ => (⟨[], false, false⟩ : PhaseOut)
    ⟨trig.events ++ conv.events ++ pr.events, upd.1, upd.2, pr.activity, pr.aborted, trig.db⟩

/-- Whether an event is a spawn request (Planner or Executor) for the issue. -/
def concernsIssue (issue : Nat) : SpawnEvent → Bool
  | .plannerAttempt j _ => j == issue
  | .executorAttempt j _ => j == issue
  | .wait _ => false

/-- Whether an event is a successful Planner spawn for the issue. -/
def isPlannerSuccess (issue : Nat) : SpawnEvent → Bool
  | .plannerAttempt j ok => j == issue && ok
  | _ => false

/-- Whether an event is an Executor spawn attempt for the issue, successful or
not. -/
def isExecutorAttempt (issue : Nat) : SpawnEvent → Bool
  | .executorAttempt j _ => j == issue
  | _ => false

/-- Whether an event is a Planner spawn attempt for any issue. -/
def isPlannerEvent : SpawnEvent → Bool
  | .plannerAttempt _ _ => true
  | _ => false

/-- A comment by user on issue 42 with the given body, for the routing
examples of the specification. -/
def sampleComment (body : String) : Comment := ⟨42, "user", body, 0⟩

/-- A reliable state store whose plan-existence read always answers b and
whose other reads succeed. -/
def planDb (b : Bool) : Database :=
  ⟨fun _ => false, fun _ => false, fun _ => .ok b, fun _ => .ok 0, fun _ => false⟩

/-- The body of the first routing example of the specification, with its
apostrophe built explicitly. -/
def letsTryBody : String := "let" ++ String.singleton apostrophe ++ "s try a different approach"

/-- C3: AgentRouter.decide obeys the fixed total precedence: empty comments
default to Executor; a re-planning keyword in the case-folded most recent
comment forces Planner regardless of the plan flag; otherwise a missing plan
forces Planner; otherwise Executor. The three example verdicts of the
specification hold. -/
theorem decide_precedence (comments : List Comment) (db : Database) (last : Comment) :
    (comments = [] → AgentRouter.decide comments db = .ok Agent.Executor) ∧
    (comments.getLast? = some last →
      ((replanning_keywords.any fun kw => strContainsSub (lowerStr last.body) kw) = true →
        AgentRouter.decide comments db = .ok Agent.Planner) ∧
      ((replanning_keywords.any fun kw => strContainsSub (lowerStr last.body) kw) = false →
        (db.hasPlanRes last.issue_number = .ok false →
          AgentRouter.decide comments db = .ok Agent.Planner) ∧
        (db.hasPlanRes last.issue_number = .ok true →
          AgentRouter.decide comments db = .ok Agent.Executor))) ∧
    AgentRouter.decide [sampleComment letsTryBody] (planDb true) = .ok Agent.Planner ∧
    AgentRouter.decide [sampleComment "looks good, ship it"] (planDb false) = .ok Agent.Planner ∧
    AgentRouter.decide [sampleComment "fix the typo"] (planDb true) = .ok Agent.Executor := by
  refine ⟨?_, ?_, rfl, rfl, rfl⟩
  · intro h
    subst h
    rfl
  · intro hlast
    constructor
    · intro hk
      simp only [AgentRouter.decide, hlast, hk, if_true]
    · intro hk
      constructor
      · intro hp
        simp only [AgentRouter.decide, hlast, hk, Bool.false_eq_true, if_false, hp,
          Bool.not_false, if_true]
      · intro hp
        simp only [AgentRouter.decide, hlast, hk, Bool.false_eq_true, if_false, hp,
          Bool.not_true, Bool.false_eq_true, if_false]

/-- Witness for C3 at concrete inputs: the empty comment list defaults to
Executor. -/
theorem decide_precedence_witness :
    AgentRouter.decide [] (planDb true) = .ok Agent.Executor :=
  (decide_precedence [] (planDb true) (sampleComment "x")).1 rfl

/-- C4: in per-issue trigger handling, a successful Planner spawn is followed
by exactly one Executor spawn attempt for the same issue, after the fixed
15-second grace wait, whatever the outcome of that attempt; a failed Planner
spawn is followed by no Executor attempt. -/
theorem planner_executor_sequencing (env : Env) (db : Database) (issue : Nat) :
    ((handleTrigger env db issue).events.countP (isPlannerSuccess issue) = 1 →
      (handleTrigger env db issue).events =
        [SpawnEvent.plannerAttempt issue true, SpawnEvent.wait 15,
         SpawnEvent.executorAttempt issue (env.executorOk issue)] ∧
      (handleTrigger env db issue).events.countP (isExecutorAttempt issue) = 1) ∧
    (env.plannerOk issue = false →
      (handleTrigger env db issue).events.countP (isExecutorAttempt issue) = 0) := by
  by_cases hg : unwrapOr (db.automation_exists issue) false = true
  · constructor
    · intro hs
      simp [handleTrigger, hg, List.countP_nil] at hs
    · intro _
      simp [handleTrigger, hg, List.countP_nil]
  · by_cases hp : env.plannerOk issue = true
    · constructor
      · intro _
        refine ⟨?_, ?_⟩
        · simp [handleTrigger, hg, hp]
        · simp [handleTrigger, hg, hp, List.countP_cons, List.countP_nil, isExecutorAttempt]
      · intro hpf
        rw [hpf] at hp
        exact absurd hp (by simp)
    · have hpf : env.plannerOk issue = false := by
        cases h : env.plannerOk issue
        · rfl
        · exact absurd h hp
      constructor
      · intro hs
        exfalso
        simp [handleTrigger, hg, hpf, List.countP_cons, List.countP_nil, isPlannerSuccess] at hs
      · intro _
        simp [handleTrigger, hg, hpf, List.countP_cons, List.countP_nil, isExecutorAttempt]

/-- Witness for C4: with an untracked issue, a succeeding Planner spawn and a
failing Executor spawn, the per-issue flow still contains exactly one Executor
attempt. -/
theorem planner_executor_sequencing_witness :
    (handleTrigger ⟨fun _ => true, fun _ => true, fun _ => false, fun _ _ => .ok [],
        fun _ _ => .ok []⟩ (planDb true) 42).events.countP (isExecutorAttempt 42) = 1 :=
  ((planner_executor_sequencing ⟨fun _ => true, fun _ => true, fun _ => false,
    fun _ _ => .ok [], fun _ _ => .ok []⟩ (planDb true) 42).1 (by rfl)).2

/-- Ordering of activity states by polling aggressiveness. -/
def ActivityState.rank : ActivityState → Nat
  | .Idle => 0
  | .Active => 1
  | .VeryActive => 2

/-- C5: the activity-state update is exactly the specified transition
function: on detected activity the state becomes VeryActive when the gap is
under 120 seconds and Active otherwise, with the last-activity timestamp set
to now; on no activity the state is forced to Idle when the idle duration
exceeds the configured timeout, is downgraded from VeryActive to Active when
it exceeds 120 seconds, and is otherwise unchanged; lack of activity never
raises the rank of the state. -/
theorem activity_update_matches_spec (cfg : Config) (st : ActivityState) (la now : Nat) :
    (activityUpdate cfg st la now true =
      (if now - la < 120 then ActivityState.VeryActive else ActivityState.Active, now)) ∧
    (now - la > cfg.activity_timeout_minutes * 60 →
      activityUpdate cfg st la now false = (ActivityState.Idle, la)) ∧
    (now - la ≤ cfg.activity_timeout_minutes * 60 → now - la > 120 →
      st = ActivityState.VeryActive →
      activityUpdate cfg st la now false = (ActivityState.Active, la)) ∧
    (now - la ≤ cfg.activity_timeout_minutes * 60 →
      (now - la ≤ 120 ∨ st ≠ ActivityState.VeryActive) →
      activityUpdate cfg st la now false = (st, la)) ∧
    ((activityUpdate cfg st la now false).1.rank ≤ st.rank) := by
  refine ⟨rfl, ?_, ?_, ?_, ?_⟩
  · intro h
    simp only [activityUpdate, Bool.false_eq_true, if_false, h, if_true]
  · intro h1 h2 h3
    simp only [activityUpdate, Bool.false_eq_true, if_false]
    rw [if_neg (by omega), if_pos ⟨h2, h3⟩]
  · intro h1 h2
    simp only [activityUpdate, Bool.false_eq_true, if_false]
    rw [if_neg (by omega), if_neg (by rcases h2 with h | h <;> [omega; exact fun hc => h hc.2])]
  · simp only [activityUpdate, Bool.false_eq_true, if_false]
    split
    · simp [ActivityState.rank]
    · split
      · rename_i h
        rw [h.2]
        simp [ActivityState.rank]
      · exact le_refl _

/-- Witness for C5: after 130 idle seconds with a ten-minute timeout,
VeryActive downgrades to Active. -/
theorem activity_update_matches_spec_witness :
    activityUpdate ⟨60, 15, 5, 10⟩ ActivityState.VeryActive 0 130 false =
      (ActivityState.Active, 0) :=
  (activity_update_matches_spec ⟨60, 15, 5, 10⟩ ActivityState.VeryActive 0 130).2.2.1
    (by decide) (by decide) rfl

/-- C7: the update never moves from Idle to VeryActive without a detected
activity observation, and never moves from VeryActive to Idle unless no
activity was detected and the idle duration exceeds the configured timeout. -/
theorem activity_no_jumps (cfg : Config) (st : ActivityState) (la now : Nat) (detected : Bool) :
    (st = ActivityState.Idle →
      (activityUpdate cfg st la now detected).1 = ActivityState.VeryActive →
      detected = true) ∧
    (st = ActivityState.VeryActive →
      (activityUpdate cfg st la now detected).1 = ActivityState.Idle →
      detected = false ∧ now - la > cfg.activity_timeout_minutes * 60) := by
  constructor
  · intro hst hnew
    cases detected
    · exfalso
      simp only [activityUpdate, Bool.false_eq_true, if_false] at hnew
      split at hnew
      · exact ActivityState.noConfusion hnew
      · split at hnew
        · exact ActivityState.noConfusion hnew
        · rw [hst] at hnew
          exact ActivityState.noConfusion hnew
    · rfl
  · intro hst hnew
    cases detected
    · refine ⟨rfl, ?_⟩
      simp only [activityUpdate, Bool.false_eq_true, if_false] at hnew
      split at hnew
      · rename_i h
        exact h
      · split at hnew
        · exact ActivityState.noConfusion hnew
        · rw [hst] at hnew
          exact ActivityState.noConfusion hnew
    · exfalso
      simp only [activityUpdate, if_true] at hnew
      split at hnew
      · exact ActivityState.noConfusion hnew
      · exact ActivityState.noConfusion hnew

/-- Witness for C7: a detected-activity cycle moving Idle to VeryActive
satisfies the first clause, at concrete inputs. -/
theorem activity_no_jumps_witness : (true : Bool) = true :=
  (activity_no_jumps ⟨60, 15, 5, 10⟩ ActivityState.Idle 0 50 true).1 rfl (by decide)

/-- An unreliable state store whose plan-existence read always fails and
whose other reads succeed. -/
def errPlanDb : Database :=
  ⟨fun _ => false, fun _ => false, fun _ => .error (), fun _ => .ok 0, fun _ => false⟩

/-- C8 counterexample: decide propagates a failing plan-existence read as an
error, so it is not an error-free function. -/
theorem decide_error_on_plan_read_failure :
    AgentRouter.decide [sampleComment "fix the typo"] errPlanDb = .error () := rfl

/-- Unfolding of decide at a non-empty comment list, in terms of the most
recent comment. -/
theorem decide_some (last : Comment) (cs : List Comment) (db : Database)
    (hl : cs.getLast? = some last) :
    AgentRouter.decide cs db =
      (if (replanning_keywords.any fun kw => strContainsSub (lowerStr last.body) kw) then
        (Except.ok Agent.Planner : Except Unit Agent)
      else match db.hasPlanRes last.issue_number with
        | .error e => .error e
        | .ok hasPlan => if !hasPlan then .ok .Planner else .ok .Executor) := by
  unfold AgentRouter.decide
  rw [hl]

/-- C8 amended: decide performs no effects beyond the plan-existence read;
its verdict depends only on the most recent comment, so equal last comments
against one state store give equal results; and it returns an error exactly
when the most recent comment matches no re-planning keyword and the
plan-existence read for its issue fails. -/
theorem decide_depends_on_last_comment (cs1 cs2 : List Comment) (db : Database)
    (h1 : cs1 ≠ []) (h2 : cs2 ≠ []) (hlast : cs1.getLast? = cs2.getLast?) :
    AgentRouter.decide cs1 db = AgentRouter.decide cs2 db ∧
    (∀ e, AgentRouter.decide cs1 db = .error e ↔
      ∃ last, cs1.getLast? = some last ∧
        (replanning_keywords.any fun kw => strContainsSub (lowerStr last.body) kw) = false ∧
        db.hasPlanRes last.issue_number = .error e) := by
  constructor
  · unfold AgentRouter.decide
    rw [hlast]
  · intro e
    constructor
    · intro he
      cases hl : cs1.getLast? with
      | none =>
        unfold AgentRouter.decide at he
        rw [hl] at he
        exact Except.noConfusion he
      | some last =>
        rw [decide_some last cs1 db hl] at he
        by_cases hk : (replanning_keywords.any fun kw =>
            strContainsSub (lowerStr last.body) kw) = true
        · rw [if_pos hk] at he
          exact Except.noConfusion he
        · refine ⟨last, rfl, Bool.eq_false_iff.mpr hk, ?_⟩
          rw [if_neg hk] at he
          cases hp : db.hasPlanRes last.issue_number with
          | error e2 =>
            exact congrArg Except.error (Subsingleton.elim e2 e)
          | ok b =>
            rw [hp] at he
            cases b
            · exact Except.noConfusion he
            · exact Except.noConfusion he
    · intro hex
      rcases hex with ⟨last, hl, hk, hp⟩
      rw [decide_some last cs1 db hl, if_neg (by rw [hk]; exact Bool.false_ne_true), hp]

/-- Witness for C8 amended: two comment sequences with the same most recent
comment get the same verdict. -/
theorem decide_depends_on_last_comment_witness :
    AgentRouter.decide [sampleComment "fix the typo"] (planDb true) =
      AgentRouter.decide [sampleComment "hello", sampleComment "fix the typo"] (planDb true) :=
  (decide_depends_on_last_comment [sampleComment "fix the typo"]
    [sampleComment "hello", sampleComment "fix the typo"] (planDb true)
    (by simp) (by simp) rfl).1

/-- A collaborator environment whose spawns all succeed and whose comment
queries return nothing. -/
def demoEnv : Env :=
  ⟨fun _ => true, fun _ => true, fun _ => true, fun _ _ => .ok [], fun _ _ => .ok []⟩

/-- The cycle input of the C6 failing run: no triggers, no conversation
activity, one automation PR (number 5, for issue 7) with a fresh review
comment, and a session runner whose Executor spawns succeed. -/
def prOnlyEnv : Env :=
  ⟨fun _ => false, fun _ => false, fun _ => true,
   fun _ _ => .ok [],
   fun pr _ => if pr = 5 then .ok [⟨7, "rev", "please fix lint", 50⟩] else .ok []⟩

/-- C9: with a successful last-comment-time read and a successful, non-empty
PR-comment fetch, the PR-feedback flow attempts exactly one Executor spawn
for the associated issue and never a Planner, whatever the comment bodies
say and whatever AgentRouter would decide for them. -/
theorem pr_feedback_always_executor (env : Env) (db : Database) (pr issue since : Nat)
    (cs : List Comment) (hT : db.lastTimeRes issue = .ok since)
    (hC : env.getPrComments pr since = .ok cs) (hne : cs ≠ []) :
    (handlePrFeedback env db pr issue).events =
      [SpawnEvent.executorAttempt issue (env.executorOk issue)] ∧
    (handlePrFeedback env db pr issue).events.countP isPlannerEvent = 0 := by
  cases cs with
  | nil => exact absurd rfl hne
  | cons a t =>
    by_cases ha : db.addCommentsErr issue = true
    · constructor
      · simp [handlePrFeedback, hT, hC, ha]
      · simp [handlePrFeedback, hT, hC, ha, List.countP_cons, List.countP_nil, isPlannerEvent]
    · constructor
      · simp [handlePrFeedback, hT, hC, ha]
      · simp [handlePrFeedback, hT, hC, ha, List.countP_cons, List.countP_nil, isPlannerEvent]

/-- Witness for C9 at the concrete PR-feedback run: PR 5 for issue 7 with one
new review comment produces exactly the Executor attempt for issue 7. -/
theorem pr_feedback_always_executor_witness :
    (handlePrFeedback prOnlyEnv (planDb true) 5 7).events =
      [SpawnEvent.executorAttempt 7 true] :=
  (pr_feedback_always_executor prOnlyEnv (planDb true) 5 7 0
    [⟨7, "rev", "please fix lint", 50⟩] rfl rfl (by simp)).1

/-- C10: the idempotency guard fails open — when the automation-record
existence read errors for an issue that already has a record, unwrap_or(false)
treats the issue as untracked and a Planner spawn is attempted anyway. -/
theorem spawn_guard_fails_open (env : Env) (db : Database) (issue : Nat)
    (hErr : db.existsReadErr issue = true) (hRec : db.records issue = true)
    (hOk : env.plannerOk issue = true) :
    SpawnEvent.plannerAttempt issue true ∈ (handleTrigger env db issue).events := by
  simp [handleTrigger, Database.automation_exists, unwrapOr, hErr, hOk]

/-- A state store that has an AutomationRecord for issue 3 but whose
existence read for issue 3 errors. -/
def guardBugDb : Database :=
  ⟨fun i => i == 3, fun i => i == 3, fun _ => .ok true, fun _ => .ok 0, fun _ => false⟩

/-- Witness for C10: issue 3 is tracked, its existence read errors, and the
trigger handler still spawns a Planner for it. -/
theorem spawn_guard_fails_open_witness :
    SpawnEvent.plannerAttempt 3 true ∈ (handleTrigger demoEnv guardBugDb 3).events :=
  spawn_guard_fails_open demoEnv guardBugDb 3 rfl rfl rfl

/-- The cycle input of the C2 failing run: one active issue 7 with a fresh
comment that routes to Executor, and a session runner whose Executor spawn
fails. -/
def convBugEnv : Env :=
  ⟨fun _ => false, fun _ => false, fun _ => false,
   fun i since => if i = 7 ∧ since = 0 then .ok [⟨7, "user", "fix the typo", 10⟩] else .ok [],
   fun _ _ => .ok []⟩

/-- C2 refuted on the code: an Executor spawn failure during per-issue
conversation handling escapes through the ? operator at main.rs line 125; the
per-issue handler and the whole cycle abort and the daemon process exits,
instead of the error being caught and logged. -/
theorem conv_spawn_error_kills_daemon :
    (handleConvIssue convBugEnv (planDb true) 7).aborted = true ∧
    (runCycle convBugEnv ⟨60, 15, 5, 10⟩ (planDb true) ActivityState.Active 0 30
      (.ok []) (.ok [7]) (.ok [])).aborted = true := ⟨rfl, rfl⟩

/-- The C6 run: prior state Idle, last activity at second 0, cycle at second
1000, ten-minute activity timeout, PR 5 for issue 7 carrying a new comment. -/
def prOnlyCycle : CycleOut :=
  runCycle prOnlyEnv ⟨60, 15, 5, 10⟩ (planDb true) ActivityState.Idle 0 1000
    (.ok []) (.ok []) (.ok [(5, 7)])

/-- C6 refuted on the code: the PR-feedback phase observes new comments and
sets the activity flag (main.rs line 182), but the activity-state update of
lines 146-173 has already run, so the cycle leaves the state Idle and the
next poll interval is the idle one; had the flag reached the update, the
state would have been Active. -/
theorem pr_activity_misses_update :
    prOnlyCycle.prActivityObserved = true ∧
    prOnlyCycle.state = ActivityState.Idle ∧
    pollInterval ⟨60, 15, 5, 10⟩ prOnlyCycle.state = 60 ∧
    (activityUpdate ⟨60, 15, 5, 10⟩ ActivityState.Idle 0 1000 true).1 =
      ActivityState.Active := ⟨rfl, rfl, rfl, rfl⟩

/-- handleTrigger leaves the read-error profile of the state store unchanged. -/
theorem handleTrigger_existsReadErr (env : Env) (db : Database) (i : Nat) :
    (handleTrigger env db i).db.existsReadErr = db.existsReadErr := by
  unfold handleTrigger
  split
  · rfl
  · split
    · rfl
    · rfl

/-- triggerPhase leaves the read-error profile of the state store unchanged. -/
theorem triggerPhase_existsReadErr (env : Env) (issues : List Nat) :
    ∀ db : Database, (triggerPhase env db issues).db.existsReadErr = db.existsReadErr := by
  induction issues with
  | nil =>
    intro db
    rfl
  | cons j rest ih =>
    intro db
    show (triggerPhase env (handleTrigger env db j).db rest).db.existsReadErr = _
    rw [ih, handleTrigger_existsReadErr]

/-- A tracked issue with a reliable existence read is skipped. -/
theorem handleTrigger_skip (env : Env) (db : Database) (i : Nat)
    (hr : db.existsReadErr i = false) (hrec : db.records i = true) :
    handleTrigger env db i = ⟨[], false, db⟩ := by
  simp [handleTrigger, Database.automation_exists, unwrapOr, hr, hrec]

/-- An untracked issue with a reliable read and a succeeding Planner spawn
produces the Planner-wait-Executor sequence and records the issue. -/
theorem handleTrigger_untracked_success (env : Env) (db : Database) (i : Nat)
    (hr : db.existsReadErr i = false) (hrec : db.records i = false)
    (hok : env.plannerOk i = true) :
    handleTrigger env db i =
      ⟨[.plannerAttempt i true, .wait 15, .executorAttempt i (env.executorOk i)],
        true, db.addRecord i⟩ := by
  simp [handleTrigger, Database.automation_exists, unwrapOr, hr, hrec, hok]

/-- An untracked issue with a reliable read and a failing Planner spawn
produces only the failed attempt and leaves the store unchanged. -/
theorem handleTrigger_untracked_failure (env : Env) (db : Database) (i : Nat)
    (hr : db.existsReadErr i = false) (hrec : db.records i = false)
    (hok : env.plannerOk i = false) :
    handleTrigger env db i = ⟨[.plannerAttempt i false], false, db⟩ := by
  simp [handleTrigger, Database.automation_exists, unwrapOr, hr, hrec, hok]

/-- Adding a record marks its own issue as tracked. -/
theorem addRecord_self (db : Database) (i : Nat) : (db.addRecord i).records i = true := by
  simp [Database.addRecord]

/-- Handling one issue emits no event for, and does not touch the record of,
a different issue. -/
theorem handleTrigger_other (env : Env) (db : Database) (j i : Nat) (hne : j ≠ i) :
    (handleTrigger env db j).events.countP (concernsIssue i) = 0 ∧
    (handleTrigger env db j).events.countP (isPlannerSuccess i) = 0 ∧
    (handleTrigger env db j).db.records i = db.records i := by
  have hb : (j == i) = false := by simp [hne]
  have hb2 : i ≠ j := Ne.symm hne
  unfold handleTrigger
  split
  · simp [List.countP_nil]
  · split
    · refine ⟨?_, ?_, ?_⟩
      · simp [List.countP_cons, List.countP_nil, concernsIssue, hb]
      · simp [List.countP_cons, List.countP_nil, isPlannerSuccess, hb]
      · simp [Database.addRecord, hb2]
    · refine ⟨?_, ?_, rfl⟩
      · simp [List.countP_cons, List.countP_nil, concernsIssue, hb]
      · simp [List.countP_cons, List.countP_nil, isPlannerSuccess, hb]

/-- A successful Planner spawn event for an issue concerns that issue. -/
theorem isPlannerSuccess_implies_concerns (i : Nat) (e : SpawnEvent)
    (h : isPlannerSuccess i e = true) : concernsIssue i e = true := by
  cases e with
  | plannerAttempt j ok =>
    simp only [isPlannerSuccess, Bool.and_eq_true] at h
    simp only [concernsIssue]
    exact h.1
  | executorAttempt j ok => simp [isPlannerSuccess] at h
  | wait s => simp [isPlannerSuccess] at h

/-- A list with no event concerning an issue has no successful Planner spawn
for it. -/
theorem countP_success_of_concerns_zero (i : Nat) (l : List SpawnEvent)
    (h : l.countP (concernsIssue i) = 0) : l.countP (isPlannerSuccess i) = 0 := by
  rw [List.countP_eq_zero] at *
  intro e he hsucc
  exact h e he (isPlannerSuccess_implies_concerns i e hsucc)

/-- The invariant of one trigger scan for a fixed issue with a reliable
existence read: a tracked issue gets no events and stays tracked; the scan
performs at most one successful Planner spawn for the issue, none when it is
already tracked; any successful Planner spawn leaves the issue tracked. -/
theorem triggerPhase_inv (env : Env) (issues : List Nat) (i : Nat) :
    ∀ db : Database, db.existsReadErr i = false →
      (db.records i = true →
        (triggerPhase env db issues).events.countP (concernsIssue i) = 0 ∧
        (triggerPhase env db issues).db.records i = true) ∧
      ((triggerPhase env db issues).events.countP (isPlannerSuccess i) ≤
        (if db.records i = true then 0 else 1)) ∧
      (1 ≤ (triggerPhase env db issues).events.countP (isPlannerSuccess i) →
        (triggerPhase env db issues).db.records i = true) := by
  induction issues with
  | nil =>
    intro db hr
    refine ⟨fun hrec => ⟨rfl, hrec⟩, ?_, ?_⟩
    · show List.countP _ [] ≤ _
      rw [List.countP_nil]
      exact Nat.zero_le _
    · intro h
      rw [show (triggerPhase env db []).events = [] from rfl, List.countP_nil] at h
      exact absurd h (by omega)
  | cons j rest ih =>
    intro db hr
    have hstep : triggerPhase env db (j :: rest) =
        ⟨(handleTrigger env db j).events ++
            (triggerPhase env (handleTrigger env db j).db rest).events,
          (handleTrigger env db j).activity ||
            (triggerPhase env (handleTrigger env db j).db rest).activity,
          (triggerPhase env (handleTrigger env db j).db rest).db⟩ := rfl
    by_cases hji : j = i
    · subst hji
      cases hrec : db.records j with
      | true =>
        have ho := handleTrigger_skip env db j hr hrec
        have hrest := ih db hr
        rw [hstep, ho]
        dsimp only
        rw [List.nil_append]
        refine ⟨fun _ => hrest.1 hrec, ?_, hrest.2.2⟩
        have h2 := hrest.2.1
        rw [hrec] at h2
        exact h2
      | false =>
        cases hok : env.plannerOk j with
        | true =>
          have ho := handleTrigger_untracked_success env db j hr hrec hok
          have hr2 : (db.addRecord j).existsReadErr j = false := hr
          have hrest := ih (db.addRecord j) hr2
          have htracked := hrest.1 (addRecord_self db j)
          have hc1 : List.countP (isPlannerSuccess j)
              [SpawnEvent.plannerAttempt j true, SpawnEvent.wait 15,
               SpawnEvent.executorAttempt j (env.executorOk j)] = 1 := by
            simp [List.countP_cons, List.countP_nil, isPlannerSuccess]
          rw [hstep, ho]
          dsimp only
          refine ⟨fun hrec2 => absurd hrec2 (by simp), ?_, fun _ => htracked.2⟩
          rw [List.countP_append, hc1, countP_success_of_concerns_zero j _ htracked.1]
          simp
        | false =>
          have ho := handleTrigger_untracked_failure env db j hr hrec hok
          have hrest := ih db hr
          have hc1 : List.countP (isPlannerSuccess j)
              [SpawnEvent.plannerAttempt j false] = 0 := by
            simp [List.countP_cons, List.countP_nil, isPlannerSuccess]
          rw [hstep, ho]
          dsimp only
          refine ⟨fun hrec2 => absurd hrec2 (by simp), ?_, ?_⟩
          · rw [List.countP_append, hc1]
            have h2 := hrest.2.1
            rw [hrec] at h2
            simp only [Bool.false_eq_true, if_false] at h2 ⊢
            omega
          · rw [List.countP_append, hc1]
            intro h
            exact hrest.2.2 (by omega)
    · have hother := handleTrigger_other env db j i hji
      have hr2 : (handleTrigger env db j).db.existsReadErr i = false := by
        rw [handleTrigger_existsReadErr]
        exact hr
      have hrest := ih (handleTrigger env db j).db hr2
      rw [hstep]
      dsimp only
      refine ⟨fun hrec => ?_, ?_, ?_⟩
      · have hrec2 : (handleTrigger env db j).db.records i = true := by
          rw [hother.2.2]
          exact hrec
        refine ⟨?_, (hrest.1 hrec2).2⟩
        rw [List.countP_append, hother.1, (hrest.1 hrec2).1]
      · rw [List.countP_append, hother.2.1, Nat.zero_add, ← hother.2.2]
        exact hrest.2.1
      · rw [List.countP_append, hother.2.1, Nat.zero_add]
        exact hrest.2.2

/-- C1: with reliable existence reads, a scan cycle spawns nothing for an
issue whose AutomationRecord already exists; two scans in a row, with the
state store evolving only through the first scan, perform at most one
successful Planner spawn per issue, and the second scan emits no spawn
request for an issue the first scan successfully handled. -/
theorem trigger_scan_idempotent (env : Env) (db : Database) (issues : List Nat)
    (hr : ∀ i, db.existsReadErr i = false) :
    (∀ i, db.records i = true →
      (triggerPhase env db issues).events.countP (concernsIssue i) = 0) ∧
    (∀ i,
      ((triggerPhase env db issues).events ++
        (triggerPhase env (triggerPhase env db issues).db issues).events).countP
        (isPlannerSuccess i) ≤ 1) ∧
    (∀ i, 1 ≤ (triggerPhase env db issues).events.countP (isPlannerSuccess i) →
      (triggerPhase env (triggerPhase env db issues).db issues).events.countP
        (concernsIssue i) = 0) := by
  have hr1 : ∀ i, (triggerPhase env db issues).db.existsReadErr i = false := by
    intro i
    rw [triggerPhase_existsReadErr]
    exact hr i
  refine ⟨?_, ?_, ?_⟩
  · intro i hrec
    exact ((triggerPhase_inv env issues i db (hr i)).1 hrec).1
  · intro i
    rw [List.countP_append]
    have h1 := (triggerPhase_inv env issues i db (hr i)).2.1
    have h2 := (triggerPhase_inv env issues i (triggerPhase env db issues).db (hr1 i)).2.1
    have h3 := (triggerPhase_inv env issues i db (hr i)).2.2
    cases hrec : db.records i with
    | true =>
      rw [hrec] at h1
      have htr := ((triggerPhase_inv env issues i db (hr i)).1 hrec).2
      rw [htr] at h2
      simp only [reduceIte] at h1 h2
      omega
    | false =>
      rw [hrec] at h1
      simp only [Bool.false_eq_true, reduceIte] at h1
      by_cases hge : 1 ≤ (triggerPhase env db issues).events.countP (isPlannerSuccess i)
      · have htr := h3 hge
        rw [htr] at h2
        simp only [reduceIte] at h2
        omega
      · cases h2cv : (triggerPhase env db issues).db.records i <;> rw [h2cv] at h2 <;>
          simp only [Bool.false_eq_true, reduceIte] at h2 <;> omega
  · intro i hge
    have htr := (triggerPhase_inv env issues i db (hr i)).2.2 hge
    exact ((triggerPhase_inv env issues i (triggerPhase env db issues).db (hr1 i)).1 htr).1

/-- Witness for C1: a concrete double scan of issues 1 and 2 against an empty
reliable store performs at most one successful Planner spawn for issue 1. -/
theorem trigger_scan_idempotent_witness :
    ((triggerPhase demoEnv (planDb true) [1, 2]).events ++
      (triggerPhase demoEnv (triggerPhase demoEnv (planDb true) [1, 2]).db [1, 2]).events).countP
      (isPlannerSuccess 1) ≤ 1 :=
  (trigger_scan_idempotent demoEnv (planDb true) [1, 2] (fun _ => rfl)).2.1 1

end Automation
